import Mathlib

/-!
Verification development for the `xay` reverse-proxy repository.

The repository contains three variants of the same single-endpoint proxy:
* `src/index.ts`, first server (named here `V1`): `extractAuthHeaders`,
  `parseCredentials`, the `Bun.serve` fetch handler and its SSE `readable`;
* `src/index.ts`, second server (named here `V2`): `extractAnthropicConfig`
  and its fetch handler (buffered only);
* `src/unnamed/part_000` (named here `P0`): `errorJSON`, `extractCreds`,
  its fetch handler and the `sseStream` translator.

Strings are modelled as Lean `String` (a packed `List Char`); the JavaScript
string operations used by the source (`indexOf`, `slice`, `trim`,
`toLowerCase`, `startsWith`, `endsWith`, `includes`) are defined below on the
character list, with indices counted in characters.  JSON runtime values are
modelled by the inductive `Json`; `JSON.stringify` by `serialize`.
-/

namespace Xay

/-- JavaScript whitespace test (models the class trimmed by `String.trim`). -/
def jsWs (c : Char) : Bool := c.isWhitespace

/-- Drop whitespace from both ends of a character list (JS `trim`). -/
def trimChars (l : List Char) : List Char :=
  ((l.dropWhile jsWs).reverse.dropWhile jsWs).reverse

/-- JS `String.prototype.trim`. -/
def jsTrim (s : String) : String := ⟨trimChars s.data⟩

/-- JS `String.prototype.toLowerCase` (ASCII-adequate). -/
def jsLower (s : String) : String := ⟨s.data.map Char.toLower⟩

/-- JS `s.slice(n)` / drop the first `n` characters. -/
def jsDrop (s : String) (n : Nat) : String := ⟨s.data.drop n⟩

/-- Take the first `n` characters (JS `s.substring(0, n)`). -/
def jsTake (s : String) (n : Nat) : String := ⟨s.data.take n⟩

/-- JS `s.slice(0, -1)`: drop the last character. -/
def jsDropLast (s : String) : String := ⟨s.data.dropLast⟩

/-- Index of the first occurrence of `pat` in `hay` (JS `indexOf`),
`none` playing the role of `-1`. -/
def firstIdx (pat : List Char) : List Char → Option Nat
  | [] => if pat.isPrefixOf ([] : List Char) then some 0 else none
  | c :: rest =>
    if pat.isPrefixOf (c :: rest) then some 0
    else (firstIdx pat rest).map (· + 1)

/-- JS `s.indexOf(pat)` on strings. -/
def strIndexOf (s pat : String) : Option Nat := firstIdx pat.data s.data

/-- JS `s.includes(pat)`. -/
def jsIncludes (s pat : String) : Bool := (strIndexOf s pat).isSome

/-- JS `s.startsWith(pre)`. -/
def jsStartsWith (s pre : String) : Bool := pre.data.isPrefixOf s.data

/-- JS `s.endsWith(suf)`. -/
def jsEndsWith (s suf : String) : Bool := suf.data.isSuffixOf s.data

/-- JSON runtime values (JavaScript objects as passed around by the source).
Object field lists are those produced by `JSON.parse`, hence duplicate-free. -/
inductive Json where
  | null : Json
  | bool (b : Bool) : Json
  | num (n : Int) : Json
  | str (s : String) : Json
  | arr (elems : List Json) : Json
  | obj (fields : List (String × Json)) : Json

/-- Property lookup on an object (`x[k]`, `none` = `undefined`). -/
def lookupField : List (String × Json) → String → Option Json
  | [], _ => none
  | (k, v) :: rest, key => if k = key then some v else lookupField rest key

/-- JS property access `x.k`; `undefined` (`none`) on non-objects. -/
def jsGet : Json → String → Option Json
  | .obj fs, k => lookupField fs k
  | _, _ => none

/-- JS truthiness of a value. -/
def truthy : Json → Bool
  | .null => false
  | .bool b => b
  | .num n => n != 0
  | .str s => s != ""
  | .arr _ => true
  | .obj _ => true

/-- JS truthiness with `none` standing for `undefined`. -/
def truthyOpt : Option Json → Bool
  | none => false
  | some v => truthy v

/-- JS `??` (nullish coalescing): keep `v` unless it is `undefined`/`null`. -/
def jsCoalesce (o : Option Json) (d : Json) : Json :=
  match o with
  | none => d
  | some .null => d
  | some v => v

/-- JS `||` with an optional (possibly `undefined`) left operand. -/
def jsOrOpt (o : Option Json) (d : Json) : Json :=
  match o with
  | none => d
  | some v => if truthy v then v else d

/-- Escape a string for `JSON.stringify` output. -/
def escapeJson (s : String) : String :=
  ⟨s.data.foldr (fun c acc =>
      if c = '"' then '\\' :: '"' :: acc
      else if c = '\\' then '\\' :: '\\' :: acc
      else if c = '\n' then '\\' :: 'n' :: acc
      else if c = '\r' then '\\' :: 'r' :: acc
      else if c = '\t' then '\\' :: 't' :: acc
      else c :: acc) []⟩

mutual

/-- `JSON.stringify` on the modelled values. -/
def serialize : Json → String
  | .null => "null"
  | .bool b => cond b "true" "false"
  | .num n => toString n
  | .str s => "\"" ++ escapeJson s ++ "\""
  | .arr xs => "[" ++ serializeList xs ++ "]"
  | .obj fs => "\x7b" ++ serializeFields fs ++ "\x7d"

/-- Comma-separated serialization of array elements. -/
def serializeList : List Json → String
  | [] => ""
  | [x] => serialize x
  | x :: xs => serialize x ++ "," ++ serializeList xs

/-- Comma-separated serialization of object fields. -/
def serializeFields : List (String × Json) → String
  | [] => ""
  | [(k, v)] => "\"" ++ escapeJson k ++ "\":" ++ serialize v
  | (k, v) :: fs => "\"" ++ escapeJson k ++ "\":" ++ serialize v ++ "," ++ serializeFields fs

end

mutual

/-- JS string conversion (template interpolation) of a value. -/
def jsToString : Json → String
  | .null => "null"
  | .bool b => cond b "true" "false"
  | .num n => toString n
  | .str s => s
  | .arr xs => jsToStringArr xs
  | .obj _ => "[object Object]"

/-- JS `Array.prototype.toString`: elements joined by commas, `null` as empty. -/
def jsToStringArr : List Json → String
  | [] => ""
  | [x] => jsToStringElem x
  | x :: xs => jsToStringElem x ++ "," ++ jsToStringArr xs

/-- One array element under JS `join`. -/
def jsToStringElem : Json → String
  | .null => ""
  | v => jsToString v

end

/-- JS template interpolation where the value may be `undefined` (`none`). -/
def jsDisplay : Option Json → String
  | none => "undefined"
  | some j => jsToString j

/-! ## Credential extraction, variant V1 (`src/index.ts`, first server) -/

/-- A request header set in iteration order (names not yet lowercased). -/
abbrev HeaderList := List (String × String)

/-- `Headers.get(name)`: case-insensitive lookup of the first matching header.
The lookup names used by the source are already lowercase. -/
def headersGet (hs : HeaderList) (name : String) : Option String :=
  match hs.find? (fun p => jsLower p.1 = jsLower name) with
  | some p => some p.2
  | none => none

/-- `value && value.trim().length > 0` for an optional header value. -/
def presentNonBlank : Option String → Bool
  | none => false
  | some v => v != "" && (jsTrim v).data.length > 0

/-- `extractAuthHeaders` (src/index.ts:34-44): first of `authorization`,
`x-api-key` whose value is non-empty after trimming. -/
def extractAuthHeaders (headers : HeaderList) : Option String :=
  let authHeader := headersGet headers "authorization"
  let apiKeyHeader := headersGet headers "x-api-key"
  if presentNonBlank authHeader then authHeader
  else if presentNonBlank apiKeyHeader then apiKeyHeader
  else none

/-- The base-URL fixup at the end of `parseCredentials` (src/index.ts:93-99):
prefix `https://` unless the string starts with `http`, then strip one
trailing `/`. -/
def normalizeBase (b : String) : String :=
  let b1 := if jsStartsWith b "http" then b else "https://" ++ b
  if jsEndsWith b1 "/" then jsDropLast b1 else b1

/-- `parseCredentials` (src/index.ts:50-106): strip a `Bearer ` prefix, look
for `cc:`, split its suffix at the first `!`; fall back to the whole suffix
(and the default base URL) whenever either part is the empty string.  Always
returns an `(apiKey, baseURL)` pair, never a failure. -/
def parseCredentials (authString : String) : String × String :=
  let cleanAuth :=
    if jsStartsWith (jsLower authString) "bearer " then jsTrim (jsDrop authString 7)
    else authString
  match strIndexOf cleanAuth "cc:" with
  | none => (cleanAuth, normalizeBase "https://api.anthropic.com")
  | some ccIndex =>
    let contentAfterCc := jsDrop cleanAuth (ccIndex + 3)
    match strIndexOf contentAfterCc "!" with
    | none => (contentAfterCc, normalizeBase "https://api.anthropic.com")
    | some separatorIndex =>
      let part1 := jsTake contentAfterCc separatorIndex
      let part2 := jsDrop contentAfterCc (separatorIndex + 1)
      if part1 != "" && part2 != "" then (part1, normalizeBase part2)
      else (contentAfterCc, normalizeBase "https://api.anthropic.com")

/-! ## Credential extraction, variant P0 (`src/unnamed/part_000`) -/

/-- Result of `extractCreds`: the source returns `\x7b\x7d` (here `missing`),
`\x7b error \x7d` (here `failed`) or `\x7b creds \x7d` (here `ok`). -/
inductive ExtractResult where
  | missing : ExtractResult
  | failed (msg : String) : ExtractResult
  | ok (authToken baseURL : String) : ExtractResult
deriving DecidableEq

/-- The header scan of `extractCreds` (part_000:18-26): first
`authorization`/`x-api-key` header whose value is non-empty and contains
`cc:` (case-sensitively); headers without `cc:` are skipped, not selected. -/
def findCandidate : HeaderList → Option String
  | [] => none
  | (name, value) :: rest =>
    if (jsLower name = "authorization" ∨ jsLower name = "x-api-key")
        ∧ value ≠ "" ∧ jsIncludes value "cc:" then some value
    else findCandidate rest

/-- `extractCreds` (part_000:14-50): locate `cc:` (index taken on the
lowercased value), split the suffix at the first `!`, trim both halves,
fail when the `!` is absent or either half trims to empty. -/
def extractCreds (headers : HeaderList) : ExtractResult :=
  match findCandidate headers with
  | none => .missing
  | some candidate =>
    match strIndexOf (jsLower candidate) "cc:" with
    | none => .missing
    | some idx =>
      let payload := jsDrop candidate (idx + 3)
      match strIndexOf payload "!" with
      | none => .failed "invalid cc header: missing \"!\" separator"
      | some bangIdx =>
        let authToken := jsTrim (jsTake payload bangIdx)
        let baseURL := jsTrim (jsDrop payload (bangIdx + 1))
        if authToken = "" ∨ baseURL = "" then
          .failed "invalid cc header: empty token or base URL"
        else .ok authToken baseURL

/-! ## Credential extraction, variant V2 (`src/index.ts`, second server) -/

/-- The header scan of `extractAnthropicConfig` (src/index.ts:272-280):
identical selection policy to `findCandidate`. -/
def findCfgHeader : HeaderList → Option String
  | [] => none
  | (key, value) :: rest =>
    if (jsLower key = "authorization" ∨ jsLower key = "x-api-key")
        ∧ value ≠ "" ∧ jsIncludes value "cc:" then some value
    else findCfgHeader rest

/-- `extractAnthropicConfig` (src/index.ts:268-301): trim the whole `cc:`
suffix, then split at the first `!` and trim the halves; `none` when the
header, the `!`, or either half is missing. -/
def extractAnthropicConfig (headers : HeaderList) : Option (String × String) :=
  match findCfgHeader headers with
  | none => none
  | some rawHeaderValue =>
    match strIndexOf rawHeaderValue "cc:" with
    | none => none
    | some ccIndex =>
      let configPart := jsTrim (jsDrop rawHeaderValue (ccIndex + 3))
      if configPart = "" then none
      else
        match strIndexOf configPart "!" with
        | none => none
        | some bangIndex =>
          let apiKey := jsTrim (jsTake configPart bangIndex)
          let baseURL := jsTrim (jsDrop configPart (bangIndex + 1))
          if apiKey = "" ∨ baseURL = "" then none
          else some (apiKey, baseURL)

/-! ## Stream translation

An upstream streaming call is modelled by the finite sequence of event
objects the upstream iterator yields before it either ends normally
(`failure = none`) or raises (`failure = some e`, `e` the thrown value). -/

/-- The upstream event iterator of one streaming call. -/
structure UpstreamStream where
  events : List Json
  failure : Option Json

/-- How the outbound `ReadableStream` ends: `controller.close()` or
`controller.error(err)`. -/
inductive StreamEnd where
  | closed : StreamEnd
  | errored : StreamEnd
deriving DecidableEq

/-- One SSE chunk for an upstream event, as both variants build it:
`event: <chunk.type>\ndata: <JSON.stringify(chunk)>\n\n`. -/
def sseChunkOf (event : Json) : String :=
  "event: " ++ jsDisplay (jsGet event "type") ++ "\ndata: " ++ serialize event ++ "\n\n"

/-- The `for await` loop body shared by both translators: one chunk per
event, in arrival order. -/
def sseLoop : List Json → List String
  | [] => []
  | event :: rest => sseChunkOf event :: sseLoop rest

/-- The keep-alive chunk V1 enqueues after the loop (src/index.ts:198),
an enqueued string literal, not a `JSON.stringify` result. -/
def pingChunk : String := "event: ping\ndata: \x7b\"type\": \"ping\"\x7d\n\n"

/-- The payload P0 serializes into its final error frame (part_000:139-142):
`\x7b type: "stream_error", message: e?.message ?? String(e) \x7d`. -/
def streamErrPayload (e : Json) : Json :=
  .obj [("type", .str "stream_error"),
        ("message", jsCoalesce (jsGet e "message") (.str (jsToString e)))]

/-- The final error chunk of P0's translator. -/
def errorChunkP0 (e : Json) : String :=
  "event: error\ndata: " ++ serialize (streamErrPayload e) ++ "\n\n"

/-- P0's `sseStream` (part_000:125-147): frames for the events pulled before
the failure, then `controller.close()`; on failure one extra error frame is
emitted before closing. -/
def sseStreamOutput (up : UpstreamStream) : List String × StreamEnd :=
  match up.failure with
  | none => (sseLoop up.events, .closed)
  | some e => (sseLoop up.events ++ [errorChunkP0 e], .closed)

/-- V1's `readable` (src/index.ts:179-205): frames for the events, then the
ping chunk and `controller.close()`; on failure no further chunk is emitted
and the stream is terminated by `controller.error(err)`. -/
def readableOutput (up : UpstreamStream) : List String × StreamEnd :=
  match up.failure with
  | none => (sseLoop up.events ++ [pingChunk], .closed)
  | some _ => (sseLoop up.events, .errored)

/-! ## Request handlers

One HTTP request: method, path, headers, and the outcome of `req.json()`
(`none` when the body does not parse).  The upstream collaborator
(`client.messages.create`) is a parameter: what it would return for a
buffered call and for a streaming call, each either a value or a thrown
error value. -/

/-- An inbound HTTP request. -/
structure Request where
  method : String
  path : String
  headers : HeaderList
  body : Option Json

/-- The upstream collaborator's behaviour for this request. -/
structure Upstream where
  createResult : Except Json Json
  streamCreate : Except Json UpstreamStream

/-- A response body: absent, a plain string, a `JSON.stringify`-ed value
(kept structured; the wire body is its `serialize`), or an SSE stream. -/
inductive Body where
  | empty : Body
  | text (s : String) : Body
  | json (j : Json) : Body
  | stream (chunks : List String) (ending : StreamEnd) : Body

/-- An HTTP response: status code and body. -/
structure HttpResponse where
  status : Int
  body : Body

/-- A handler run: the response plus which pipeline stages were reached. -/
structure Trace where
  response : HttpResponse
  reachedCredExtraction : Bool
  calledUpstream : Bool

/-- `errorJSON` (part_000:5-10) before stringification:
`\x7b type: "error", error: \x7b type, message \x7d \x7d`.  The source
annotates both arguments as strings but its callers pass through upstream
error fields unchecked, so the model takes `Json` values. -/
def errorJSONv (t m : Json) : Json :=
  .obj [("type", .str "error"), ("error", .obj [("type", t), ("message", m)])]

/-- V1's streaming test (src/index.ts:167): `body.stream === true`. -/
def isStreamingV1 (body : Json) : Bool :=
  match jsGet body "stream" with
  | some (.bool true) => true
  | _ => false

/-- V1's status for an upstream failure (src/index.ts:229):
`apiError.status || 500`.  A non-numeric truthy `status` would make the
`Response` constructor itself throw and is outside the model. -/
def v1ErrStatus (e : Json) : Int :=
  match jsGet e "status" with
  | some (.num n) => if n != 0 then n else 500
  | _ => 500

/-- V1's body for an upstream failure (src/index.ts:230):
`apiError.error || \x7b message: apiError.message \x7d`; `JSON.stringify`
drops a `message` field holding `undefined`. -/
def v1ErrBody (e : Json) : Json :=
  let fallback : Json :=
    match jsGet e "message" with
    | some m => .obj [("message", m)]
    | none => .obj []
  match jsGet e "error" with
  | some v => if truthy v then v else fallback
  | none => fallback

/-- V1's fetch handler (src/index.ts:112-248).  `OPTIONS` gets an empty CORS
response; other non-`POST` methods get a plain-text 405; the path is never
inspected.  The outer `try`/`catch` (500 `Internal Proxy Error`) only fires
on exceptions no step of this model produces, so it has no branch here. -/
def handlerV1 (up : Upstream) (req : Request) : Trace :=
  if req.method = "OPTIONS" then
    ⟨⟨200, .empty⟩, false, false⟩
  else if req.method ≠ "POST" then
    ⟨⟨405, .text "Method Not Allowed"⟩, false, false⟩
  else
    match extractAuthHeaders req.headers with
    | none =>
      ⟨⟨401, .json (.obj [("error", .obj [("type", .str "authentication_error"),
                                          ("message", .str "Missing API key")])])⟩,
        true, false⟩
    | some rawAuth =>
      let _creds := parseCredentials rawAuth
      match req.body with
      | none => ⟨⟨400, .text "Invalid JSON"⟩, true, false⟩
      | some body =>
        if isStreamingV1 body then
          match up.streamCreate with
          | .error e => ⟨⟨v1ErrStatus e, .json (v1ErrBody e)⟩, true, true⟩
          | .ok s =>
            ⟨⟨200, .stream (readableOutput s).1 (readableOutput s).2⟩, true, true⟩
        else
          match up.createResult with
          | .error e => ⟨⟨v1ErrStatus e, .json (v1ErrBody e)⟩, true, true⟩
          | .ok result => ⟨⟨200, .json result⟩, true, true⟩

/-- V2's 401 message (src/index.ts:332-333). -/
def v2AuthMsg : String :=
  "Missing or invalid credentials. Expected \"cc:<ANTHROPIC_AUTH_TOKEN>!<ANTHROPIC_BASE_URL>\" in Authorization or X-API-Key header."

/-- V2's status for an upstream failure (src/index.ts:380):
`typeof err?.status === "number" ? err.status : 500`. -/
def v2ErrStatus (e : Json) : Int :=
  match jsGet e "status" with
  | some (.num n) => n
  | _ => 500

/-- V2's message for an upstream failure (src/index.ts:381-384):
`err?.message || err?.error?.message || "Upstream Anthropic request failed."`. -/
def v2ErrMsg (e : Json) : Json :=
  jsOrOpt (jsGet e "message")
    (jsOrOpt ((jsGet e "error").bind (jsGet · "message"))
      (.str "Upstream Anthropic request failed."))

/-- V2's fetch handler (src/index.ts:304-399): everything that is not
`POST /v1/messages` gets a 404 (even a wrong method); buffered mode only. -/
def handlerV2 (up : Upstream) (req : Request) : Trace :=
  if req.method ≠ "POST" ∨ req.path ≠ "/v1/messages" then
    ⟨⟨404, .json (.obj [("error", .obj [("type", .str "invalid_request_error"),
        ("message", .str "Only POST /v1/messages is supported by this proxy.")])])⟩,
      false, false⟩
  else
    match extractAnthropicConfig req.headers with
    | none =>
      ⟨⟨401, .json (.obj [("error", .obj [("type", .str "authentication_error"),
                                          ("message", .str v2AuthMsg)])])⟩,
        true, false⟩
    | some _cfg =>
      match req.body with
      | none =>
        ⟨⟨400, .json (.obj [("error", .obj [("type", .str "invalid_request_error"),
            ("message", .str "Request body must be valid JSON.")])])⟩,
          true, false⟩
      | some _body =>
        match up.createResult with
        | .ok upstreamResp => ⟨⟨200, .json upstreamResp⟩, true, true⟩
        | .error e =>
          ⟨⟨v2ErrStatus e, .json (.obj [("error", .obj [("type", .str "upstream_error"),
              ("message", v2ErrMsg e)])])⟩,
            true, true⟩

/-- P0's 401 message (part_000:69-71). -/
def p0AuthMsg : String :=
  "Missing credentials: expected \"Authorization\" or \"X-API-Key\" header containing \"cc:AUTH_TOKEN!BASE_URL\""

/-- P0's status for an upstream failure (part_000:107): `err?.status ?? 500`.
A non-numeric non-null `status` would make `Response` throw; outside the
model. -/
def p0ErrStatus (e : Json) : Int :=
  match jsGet e "status" with
  | some (.num n) => n
  | _ => 500

/-- P0's error type for an upstream failure (part_000:108):
`err?.error?.type ?? "api_error"`. -/
def p0ErrType (e : Json) : Json :=
  jsCoalesce ((jsGet e "error").bind (jsGet · "type")) (.str "api_error")

/-- P0's message for a buffered upstream failure (part_000:106):
`err?.message ?? "Upstream request failed"`. -/
def p0ErrMsg (e : Json) : Json :=
  jsCoalesce (jsGet e "message") (.str "Upstream request failed")

/-- P0's message when the streaming call fails to start (part_000:158). -/
def p0StreamStartMsg (e : Json) : Json :=
  jsCoalesce (jsGet e "message") (.str "Failed to start upstream stream")

/-- P0's fetch handler (part_000:52-174): only `POST /v1/messages` is served
(everything else 404); a malformed `cc:` header is a 400
`invalid_request_error`, a missing one a 401 `authentication_error`;
`!!payload.stream` selects streaming. -/
def handlerP0 (up : Upstream) (req : Request) : Trace :=
  if req.path = "/v1/messages" ∧ req.method = "POST" then
    match extractCreds req.headers with
    | .failed error =>
      ⟨⟨400, .json (errorJSONv (.str "invalid_request_error") (.str error))⟩, true, false⟩
    | .missing =>
      ⟨⟨401, .json (errorJSONv (.str "authentication_error") (.str p0AuthMsg))⟩, true, false⟩
    | .ok _tok _url =>
      match req.body with
      | none =>
        ⟨⟨400, .json (errorJSONv (.str "invalid_request_error")
            (.str "Request body must be valid JSON"))⟩,
          true, false⟩
      | some payload =>
        if !truthyOpt (jsGet payload "stream") then
          match up.createResult with
          | .ok result => ⟨⟨200, .json result⟩, true, true⟩
          | .error e =>
            ⟨⟨p0ErrStatus e, .json (errorJSONv (p0ErrType e) (p0ErrMsg e))⟩, true, true⟩
        else
          match up.streamCreate with
          | .error e =>
            ⟨⟨p0ErrStatus e, .json (errorJSONv (p0ErrType e) (p0StreamStartMsg e))⟩,
              true, true⟩
          | .ok s =>
            ⟨⟨200, .stream (sseStreamOutput s).1 (sseStreamOutput s).2⟩, true, true⟩
  else
    ⟨⟨404, .json (errorJSONv (.str "not_found") (.str "Not found"))⟩, false, false⟩

/-! ## Spec-side shape predicates

These two predicates are written from the spec's words (data-model section:
`ErrorEnvelope` is `\x7b type: string, error: \x7b type: string,
message: string \x7d \x7d`), to be compared with what the code produces. -/

/-- Does an optional value hold a JSON string? -/
def isStrOpt : Option Json → Bool
  | some (.str _) => true
  | _ => false

/-- The spec's `ErrorEnvelope` shape:
`\x7b type: string, error: \x7b type: string, message: string \x7d \x7d`. -/
def isErrorEnvelopeShaped (j : Json) : Bool :=
  isStrOpt (jsGet j "type") &&
    match jsGet j "error" with
    | some inner => isStrOpt (jsGet inner "type") && isStrOpt (jsGet inner "message")
    | _ => false

/-- The inner shape `error: \x7b type: string, message: string \x7d` without
a top-level `type` (what V2 actually produces on every failure path). -/
def isBareErrorShaped (j : Json) : Bool :=
  ((jsGet j "type").isNone && !(jsGet j "error").isNone) &&
    match jsGet j "error" with
    | some inner => isStrOpt (jsGet inner "type") && isStrOpt (jsGet inner "message")
    | _ => false

/-- Shape check lifted to a response body: only a stringified JSON value can
be envelope-shaped; plain text and streams never are. -/
def bodyEnvelope : Body → Bool
  | .json j => isErrorEnvelopeShaped j
  | _ => false

/-- Is an optional value absent, `null`, or a string? -/
def strOrNull : Option Json → Bool
  | none => true
  | some .null => true
  | some (.str _) => true
  | _ => false

/-- Upstream error values whose optional `message`, `error.type` and
`error.message` fields, when present, are strings or `null` (the shapes the
upstream SDK actually throws; spec: failures surface a status code and a
message). -/
def GoodErr (e : Json) : Bool :=
  strOrNull (jsGet e "message") &&
  strOrNull ((jsGet e "error").bind (jsGet · "type")) &&
  strOrNull ((jsGet e "error").bind (jsGet · "message"))

/-- Is a response body an SSE stream? -/
def Body.isStream : Body → Bool
  | .stream _ _ => true
  | _ => false

/-! ## Concrete sample data used by witnesses and counterexamples -/

/-- An upstream that answers `null` buffered and an empty event stream. -/
def upOk : Upstream := ⟨.ok .null, .ok ⟨[], none⟩⟩

/-- A well-formed credential header as the proxy expects it. -/
def hdrsCc : HeaderList := [("authorization", "cc:tok!example.com")]

/-- A `message_start` upstream event. -/
def evStart : Json := .obj [("type", .str "message_start")]

/-- A `content_block_delta` upstream event. -/
def evDelta : Json := .obj [("type", .str "content_block_delta"), ("index", .num 0)]

/-- A two-event upstream stream that ends normally. -/
def upTwoEvents : UpstreamStream := ⟨[evStart, evDelta], none⟩

/-- An error value thrown mid-stream. -/
def errBoom : Json := .obj [("message", .str "boom")]

/-- An upstream stream that yields one event and then raises. -/
def upFailAfterOne : UpstreamStream := ⟨[evStart], some errBoom⟩

/-- An upstream whose buffered call throws an error object carrying a
structured `error` payload (the shape the SDK throws on HTTP failures). -/
def errLeak : Json :=
  .obj [("status", .num 502), ("error", .obj [("weird", .str "upstream-internal")])]

/-- Upstream failing the buffered call with `errLeak`. -/
def upLeak : Upstream := ⟨.error errLeak, .ok ⟨[], none⟩⟩

/-- An upstream error object with string `message` and no `error` field. -/
def errGood : Json := .obj [("status", .num 500), ("message", .str "bad gateway")]

/-- Upstream failing both call forms with `errGood`. -/
def upGoodErr : Upstream := ⟨.error errGood, .error errGood⟩

/-- A GET request to the endpoint. -/
def reqWrongMethod : Request := ⟨"GET", "/v1/messages", [], none⟩

/-- A credentialed POST to a path that is not the endpoint. -/
def reqWrongPath : Request := ⟨"POST", "/weird", hdrsCc, some (.obj [])⟩

/-- A credentialed POST whose body fails to parse. -/
def reqBadBody : Request := ⟨"POST", "/v1/messages", hdrsCc, none⟩

/-- A body whose `stream` field is the (truthy, non-boolean) number 1. -/
def bodyStreamNum : Json := .obj [("stream", .num 1)]

/-- A credentialed POST carrying `bodyStreamNum`. -/
def reqStreamNum : Request := ⟨"POST", "/v1/messages", hdrsCc, some bodyStreamNum⟩

/-- A credentialed buffered POST. -/
def reqBuffered : Request := ⟨"POST", "/v1/messages", hdrsCc, some (.obj [("model", .str "x")])⟩

/-- Non-empty credential headers that do not contain `cc:` anywhere. -/
def hdrsNoCc : HeaderList := [("Authorization", "Bearer sk-live-123"), ("X-API-Key", "sk-other-456")]

/-- A POST to the endpoint whose credential headers lack `cc:`. -/
def reqNoCc : Request := ⟨"POST", "/v1/messages", hdrsNoCc, some (.obj [])⟩

/-! ## Helper lemmas -/

theorem sseLoop_eq_map (l : List Json) : sseLoop l = l.map sseChunkOf := by
  induction l with
  | nil => rfl
  | cons e rest ih => simp [sseLoop, ih]

theorem findCandidate_none (hs : HeaderList)
    (h : ∀ p ∈ hs, (jsLower p.1 = "authorization" ∨ jsLower p.1 = "x-api-key") →
      jsIncludes p.2 "cc:" = false) :
    findCandidate hs = none := by
  induction hs with
  | nil => rfl
  | cons p rest ih =>
    obtain ⟨name, value⟩ := p
    rw [findCandidate, if_neg, ih]
    · intro q hq hab
      exact h q (List.mem_cons_of_mem _ hq) hab
    · rintro ⟨hab, -, hinc⟩
      have hfalse := h (name, value) (List.mem_cons_self _ _) hab
      rw [hfalse] at hinc
      exact Bool.false_ne_true hinc

theorem findCfgHeader_none (hs : HeaderList)
    (h : ∀ p ∈ hs, (jsLower p.1 = "authorization" ∨ jsLower p.1 = "x-api-key") →
      jsIncludes p.2 "cc:" = false) :
    findCfgHeader hs = none := by
  induction hs with
  | nil => rfl
  | cons p rest ih =>
    obtain ⟨name, value⟩ := p
    rw [findCfgHeader, if_neg, ih]
    · intro q hq hab
      exact h q (List.mem_cons_of_mem _ hq) hab
    · rintro ⟨hab, -, hinc⟩
      have hfalse := h (name, value) (List.mem_cons_self _ _) hab
      rw [hfalse] at hinc
      exact Bool.false_ne_true hinc

theorem coalesce_isStr (o : Option Json) (d : String)
    (h : strOrNull o = true) :
    isStrOpt (some (jsCoalesce o (.str d))) = true := by
  rcases o with _ | v
  · simp [jsCoalesce, isStrOpt]
  · cases v <;> simp_all [jsCoalesce, isStrOpt, strOrNull]

theorem orOpt_isStr (o : Option Json) (d : Json)
    (ho : strOrNull o = true)
    (hd : isStrOpt (some d) = true) :
    isStrOpt (some (jsOrOpt o d)) = true := by
  rcases o with _ | v
  · simpa [jsOrOpt] using hd
  · cases v with
    | null => simpa [jsOrOpt, truthy] using hd
    | bool b => simp [strOrNull] at ho
    | num n => simp [strOrNull] at ho
    | str s =>
      by_cases hs : s = ""
      · simpa [jsOrOpt, truthy, hs] using hd
      · simp [jsOrOpt, truthy, hs, isStrOpt]
    | arr xs => simp [strOrNull] at ho
    | obj fs => simp [strOrNull] at ho

theorem errorJSONv_shaped (t m : Json)
    (ht : isStrOpt (some t) = true) (hm : isStrOpt (some m) = true) :
    isErrorEnvelopeShaped (errorJSONv t m) = true := by
  have h0 : isErrorEnvelopeShaped (errorJSONv t m)
      = (isStrOpt (some t) && isStrOpt (some m)) := rfl
  rw [h0, ht, hm]
  rfl

/-! ## Claim C2 -/

/-- C2: in streaming mode (the upstream sequence ends without raising), the
translator emits exactly one outbound frame per upstream event, in arrival
order, no event duplicated or dropped, each frame being
`event: <type>\ndata: <json-serialized event>\n\n` with `<type>` the event's
`type` field; the V1 variant emits the same frames followed by its
documented terminal ping chunk, and both close the stream. -/
theorem c2_translator_per_event (up : UpstreamStream) (hok : up.failure = none)
    (htypes : ∀ e ∈ up.events, ∃ s, jsGet e "type" = some (.str s)) :
    (sseStreamOutput up).2 = .closed
    ∧ (sseStreamOutput up).1.length = up.events.length
    ∧ (readableOutput up).1 = (sseStreamOutput up).1 ++ [pingChunk]
    ∧ (readableOutput up).2 = .closed
    ∧ ∀ i (h : i < up.events.length), ∃ s,
        jsGet up.events[i] "type" = some (.str s)
        ∧ (sseStreamOutput up).1[i]? =
            some ("event: " ++ s ++ "\ndata: " ++ serialize up.events[i] ++ "\n\n") := by
  have hmap := sseLoop_eq_map up.events
  refine ⟨by simp [sseStreamOutput, hok], by simp [sseStreamOutput, hok, hmap],
    by simp [readableOutput, sseStreamOutput, hok], by simp [readableOutput, hok], ?_⟩
  intro i h
  obtain ⟨s, hs⟩ := htypes up.events[i] (List.getElem_mem h)
  refine ⟨s, hs, ?_⟩
  simp [sseStreamOutput, hok, hmap, List.getElem?_eq_getElem h, sseChunkOf, hs,
    jsDisplay, jsToString]

/-- C2 witness: the two-event stream `upTwoEvents`. -/
theorem c2_translator_per_event_witness :
    (sseStreamOutput upTwoEvents).2 = .closed
    ∧ (sseStreamOutput upTwoEvents).1.length = upTwoEvents.events.length
    ∧ (readableOutput upTwoEvents).1 = (sseStreamOutput upTwoEvents).1 ++ [pingChunk]
    ∧ (readableOutput upTwoEvents).2 = .closed
    ∧ ∀ i (h : i < upTwoEvents.events.length), ∃ s,
        jsGet upTwoEvents.events[i] "type" = some (.str s)
        ∧ (sseStreamOutput upTwoEvents).1[i]? =
            some ("event: " ++ s ++ "\ndata: " ++ serialize upTwoEvents.events[i] ++ "\n\n") :=
  c2_translator_per_event upTwoEvents rfl (by
    intro e he
    simp only [upTwoEvents, List.mem_cons, List.not_mem_nil, or_false] at he
    rcases he with rfl | rfl
    · exact ⟨"message_start", rfl⟩
    · exact ⟨"content_block_delta", rfl⟩)

/-! ## Claim C3 -/

/-- C3 counterexample: after one event and a failure with message `boom`,
P0's translator does emit one final error frame and closes, but the frame's
payload is the flat object with fields `type` and `message` only — not
`ErrorEnvelope`-shaped — and V1's translator emits no error frame at all:
it terminates the stream with `controller.error`. -/
theorem c3_counterexample :
    (sseStreamOutput upFailAfterOne).1 =
      ["event: message_start\ndata: \x7b\"type\":\"message_start\"\x7d\n\n",
       "event: error\ndata: \x7b\"type\":\"stream_error\",\"message\":\"boom\"\x7d\n\n"]
    ∧ (sseStreamOutput upFailAfterOne).2 = .closed
    ∧ isErrorEnvelopeShaped (streamErrPayload errBoom) = false
    ∧ readableOutput upFailAfterOne =
        (["event: message_start\ndata: \x7b\"type\":\"message_start\"\x7d\n\n"], .errored) := by
  refine ⟨?_, rfl, rfl, ?_⟩ <;>
    simp [sseStreamOutput, readableOutput, upFailAfterOne, sseLoop, sseChunkOf, evStart,
      errBoom, errorChunkP0, streamErrPayload, jsGet, lookupField, jsDisplay, jsToString,
      jsCoalesce, serialize, serializeFields, escapeJson]

/-- C3 (amended): on a mid-stream failure, P0 emits one frame per event
already pulled, then exactly one final error frame and closes — but the
error frame's payload is the flat `\x7b type: "stream_error", message \x7d`
object, never `ErrorEnvelope`-shaped; V1 emits the event frames only and
terminates the stream with an error signal instead of a frame. -/
theorem c3_midstream_error_behavior (up : UpstreamStream) (e : Json)
    (hfail : up.failure = some e) :
    (sseStreamOutput up).1 = (up.events.map sseChunkOf) ++ [errorChunkP0 e]
    ∧ (sseStreamOutput up).2 = .closed
    ∧ isErrorEnvelopeShaped (streamErrPayload e) = false
    ∧ readableOutput up = (up.events.map sseChunkOf, .errored) := by
  have hmap := sseLoop_eq_map up.events
  refine ⟨by simp [sseStreamOutput, hfail, hmap], by simp [sseStreamOutput, hfail], ?_,
    by simp [readableOutput, hfail, hmap]⟩
  simp [isErrorEnvelopeShaped, streamErrPayload, jsGet, lookupField, isStrOpt]

/-- C3 witness: the one-event failing stream `upFailAfterOne`. -/
theorem c3_midstream_error_behavior_witness :
    (sseStreamOutput upFailAfterOne).1 =
      (upFailAfterOne.events.map sseChunkOf) ++ [errorChunkP0 errBoom]
    ∧ (sseStreamOutput upFailAfterOne).2 = .closed
    ∧ isErrorEnvelopeShaped (streamErrPayload errBoom) = false
    ∧ readableOutput upFailAfterOne = (upFailAfterOne.events.map sseChunkOf, .errored) :=
  c3_midstream_error_behavior upFailAfterOne errBoom rfl

/-! ## Claim C6 -/

/-- C6 counterexample: V2 answers `GET /v1/messages` with status 404 where
the claim demands a 405-class outcome, and V1 never checks the path: a
credentialed `POST /weird` reaches credential extraction and the upstream
and succeeds with 200 where the claim demands a 404-class rejection before
extraction. -/
theorem c6_counterexample :
    (handlerV2 upOk reqWrongMethod).response.status = 404
    ∧ (404 : Int) ≠ 405
    ∧ handlerV1 upOk reqWrongPath = ⟨⟨200, .json .null⟩, true, true⟩ :=
  ⟨rfl, by decide, rfl⟩

/-- C6 (amended): V1 rejects non-POST, non-OPTIONS methods with a
plain-text 405 before credential extraction and answers OPTIONS with an
empty 200, but never checks the path; V2 and P0 reject anything that is not
`POST /v1/messages` — wrong methods included — with a 404 error envelope,
before credential extraction and without calling the upstream. -/
theorem c6_method_path_policy (up : Upstream) (req : Request) :
    (req.method ≠ "POST" → req.method ≠ "OPTIONS" →
      handlerV1 up req = ⟨⟨405, .text "Method Not Allowed"⟩, false, false⟩)
    ∧ (req.method = "OPTIONS" → handlerV1 up req = ⟨⟨200, .empty⟩, false, false⟩)
    ∧ (req.method ≠ "POST" ∨ req.path ≠ "/v1/messages" →
        handlerV2 up req =
          ⟨⟨404, .json (.obj [("error", .obj [("type", .str "invalid_request_error"),
              ("message", .str "Only POST /v1/messages is supported by this proxy.")])])⟩,
            false, false⟩
        ∧ handlerP0 up req =
            ⟨⟨404, .json (errorJSONv (.str "not_found") (.str "Not found"))⟩, false, false⟩) := by
  refine ⟨?_, ?_, ?_⟩
  · intro h1 h2
    simp [handlerV1, h1, h2]
  · intro h
    simp [handlerV1, h]
  · intro h
    have hp0 : ¬(req.path = "/v1/messages" ∧ req.method = "POST") := by tauto
    exact ⟨by simp [handlerV2, h], by simp [handlerP0, hp0]⟩

/-- C6 witness: `GET /v1/messages` against V2 and P0. -/
theorem c6_method_path_policy_witness :
    handlerV2 upOk reqWrongMethod =
      ⟨⟨404, .json (.obj [("error", .obj [("type", .str "invalid_request_error"),
          ("message", .str "Only POST /v1/messages is supported by this proxy.")])])⟩,
        false, false⟩
    ∧ handlerP0 upOk reqWrongMethod =
        ⟨⟨404, .json (errorJSONv (.str "not_found") (.str "Not found"))⟩, false, false⟩ :=
  (c6_method_path_policy upOk reqWrongMethod).2.2 (Or.inl (by decide))

/-! ## Claim C7 -/

/-- C7 counterexample: a credentialed POST whose body fails to parse gets a
400 from V1 whose body is the plain text `Invalid JSON` — not an
`ErrorEnvelope` — contradicting the claim that every such response carries
an `invalid_request_error` envelope. -/
theorem c7_counterexample :
    handlerV1 upOk reqBadBody = ⟨⟨400, .text "Invalid JSON"⟩, true, false⟩
    ∧ bodyEnvelope (handlerV1 upOk reqBadBody).response.body = false :=
  ⟨rfl, rfl⟩

/-- C7 (amended): on a credentialed POST whose body fails to parse as JSON,
no variant calls the upstream and both respond 400 — P0 with a full
`ErrorEnvelope` of error type `invalid_request_error`, V1 with the plain
text body `Invalid JSON`, which is not an envelope. -/
theorem c7_bad_body_behavior (up : Upstream) (req : Request) (a t u : String)
    (hm : req.method = "POST") (hp : req.path = "/v1/messages") (hb : req.body = none)
    (h1 : extractAuthHeaders req.headers = some a)
    (h0 : extractCreds req.headers = .ok t u) :
    handlerV1 up req = ⟨⟨400, .text "Invalid JSON"⟩, true, false⟩
    ∧ handlerP0 up req =
        ⟨⟨400, .json (errorJSONv (.str "invalid_request_error")
            (.str "Request body must be valid JSON"))⟩, true, false⟩
    ∧ bodyEnvelope (.text "Invalid JSON") = false
    ∧ bodyEnvelope (.json (errorJSONv (.str "invalid_request_error")
        (.str "Request body must be valid JSON"))) = true := by
  refine ⟨?_, ?_, rfl, rfl⟩
  · simp [handlerV1, hm, h1, hb]
  · simp [handlerP0, hm, hp, h0, hb]

/-- C7 witness: `reqBadBody` against V1 and P0. -/
theorem c7_bad_body_behavior_witness :
    handlerV1 upOk reqBadBody = ⟨⟨400, .text "Invalid JSON"⟩, true, false⟩
    ∧ handlerP0 upOk reqBadBody =
        ⟨⟨400, .json (errorJSONv (.str "invalid_request_error")
            (.str "Request body must be valid JSON"))⟩, true, false⟩
    ∧ bodyEnvelope (.text "Invalid JSON") = false
    ∧ bodyEnvelope (.json (errorJSONv (.str "invalid_request_error")
        (.str "Request body must be valid JSON"))) = true :=
  c7_bad_body_behavior upOk reqBadBody "cc:tok!example.com" "tok" "example.com"
    rfl rfl rfl rfl rfl

/-! ## Claim C8 -/

/-- C8 counterexample: with `stream` set to the truthy non-boolean number 1,
P0 serves the request in streaming mode (its response body is an SSE
stream), although the claim demands buffered mode for every value other
than the boolean `true`; V1, which tests `=== true`, buffers. -/
theorem c8_counterexample :
    handlerP0 upOk reqStreamNum = ⟨⟨200, .stream [] .closed⟩, true, true⟩
    ∧ jsGet bodyStreamNum "stream" = some (.num 1)
    ∧ Json.num 1 ≠ Json.bool true
    ∧ (handlerV1 upOk reqStreamNum).response.body.isStream = false :=
  ⟨rfl, rfl, by simp, rfl⟩

/-- C8 (amended): with credentials accepted, a parsed body, and a healthy
upstream, V1 selects streaming mode iff the body's `stream` field is the
boolean `true` (strict equality), while P0 selects streaming mode iff the
`stream` field is truthy — so truthy non-boolean values also stream there. -/
theorem c8_stream_mode_selection (up : Upstream) (req : Request) (body : Json)
    (a t u : String) (s : UpstreamStream) (d : Json)
    (hm : req.method = "POST") (hp : req.path = "/v1/messages")
    (hb : req.body = some body)
    (h1 : extractAuthHeaders req.headers = some a)
    (h0 : extractCreds req.headers = .ok t u)
    (hs : up.streamCreate = .ok s) (hd : up.createResult = .ok d) :
    ((handlerV1 up req).response.body.isStream = true
      ↔ jsGet body "stream" = some (.bool true))
    ∧ (handlerP0 up req).response.body.isStream = truthyOpt (jsGet body "stream") := by
  constructor
  · have hv1 : (handlerV1 up req).response.body.isStream = isStreamingV1 body := by
      by_cases hst : isStreamingV1 body
      · simp [handlerV1, hm, h1, hb, hst, hs, Body.isStream]
      · simp [handlerV1, hm, h1, hb, hst, hd, Body.isStream]
    rw [hv1]
    cases hj : jsGet body "stream" with
    | none => simp [isStreamingV1, hj]
    | some v =>
      cases v with
      | bool b => cases b <;> simp [isStreamingV1, hj]
      | null => simp [isStreamingV1, hj]
      | num n => simp [isStreamingV1, hj]
      | str s => simp [isStreamingV1, hj]
      | arr xs => simp [isStreamingV1, hj]
      | obj fs => simp [isStreamingV1, hj]
  · by_cases ht : truthyOpt (jsGet body "stream")
    · simp [handlerP0, hm, hp, h0, hb, ht, hs, Body.isStream]
    · simp [handlerP0, hm, hp, h0, hb, ht, hd, Body.isStream]

/-- C8 witness: `reqStreamNum` (`stream: 1`). -/
theorem c8_stream_mode_selection_witness :
    ((handlerV1 upOk reqStreamNum).response.body.isStream = true
      ↔ jsGet bodyStreamNum "stream" = some (.bool true))
    ∧ (handlerP0 upOk reqStreamNum).response.body.isStream =
        truthyOpt (jsGet bodyStreamNum "stream") :=
  c8_stream_mode_selection upOk reqStreamNum bodyStreamNum
    "cc:tok!example.com" "tok" "example.com" ⟨[], none⟩ .null
    rfl rfl rfl rfl rfl rfl rfl

/-! ## Claim C10 -/

/-- C10 (confirmed): in P0 and V2, a header under `authorization` or
`x-api-key` is selected as a credential carrier only if it contains `cc:`;
when every such header lacks `cc:`, the request is answered exactly like a
request with no credential headers at all — 401 `authentication_error`,
upstream never called — so there is no bare-token pass-through mode. -/
theorem c10_no_cc_no_passthrough (up : Upstream) (req : Request)
    (hm : req.method = "POST") (hp : req.path = "/v1/messages")
    (h : ∀ p ∈ req.headers, (jsLower p.1 = "authorization" ∨ jsLower p.1 = "x-api-key") →
      jsIncludes p.2 "cc:" = false) :
    handlerP0 up req =
      ⟨⟨401, .json (errorJSONv (.str "authentication_error") (.str p0AuthMsg))⟩,
        true, false⟩
    ∧ handlerP0 up req = handlerP0 up ⟨req.method, req.path, [], req.body⟩
    ∧ handlerV2 up req =
        ⟨⟨401, .json (.obj [("error", .obj [("type", .str "authentication_error"),
            ("message", .str v2AuthMsg)])])⟩, true, false⟩
    ∧ handlerV2 up req = handlerV2 up ⟨req.method, req.path, [], req.body⟩ := by
  have e1 : extractCreds req.headers = .missing := by
    simp [extractCreds, findCandidate_none _ h]
  have e2 : extractAnthropicConfig req.headers = none := by
    simp [extractAnthropicConfig, findCfgHeader_none _ h]
  have L1 : handlerP0 up req =
      ⟨⟨401, .json (errorJSONv (.str "authentication_error") (.str p0AuthMsg))⟩,
        true, false⟩ := by
    simp [handlerP0, hm, hp, e1]
  have L2 : handlerV2 up req =
      ⟨⟨401, .json (.obj [("error", .obj [("type", .str "authentication_error"),
          ("message", .str v2AuthMsg)])])⟩, true, false⟩ := by
    simp [handlerV2, hm, hp, e2]
  have R1 : handlerP0 up ⟨req.method, req.path, [], req.body⟩ =
      ⟨⟨401, .json (errorJSONv (.str "authentication_error") (.str p0AuthMsg))⟩,
        true, false⟩ := by
    simp [handlerP0, hm, hp, extractCreds, findCandidate]
  have R2 : handlerV2 up ⟨req.method, req.path, [], req.body⟩ =
      ⟨⟨401, .json (.obj [("error", .obj [("type", .str "authentication_error"),
          ("message", .str v2AuthMsg)])])⟩, true, false⟩ := by
    simp [handlerV2, hm, hp, extractAnthropicConfig, findCfgHeader]
  exact ⟨L1, by rw [L1, R1], L2, by rw [L2, R2]⟩

/-- C10 witness: non-empty `Authorization` and `X-API-Key` headers without
`cc:`. -/
theorem c10_no_cc_no_passthrough_witness :
    handlerP0 upOk reqNoCc =
      ⟨⟨401, .json (errorJSONv (.str "authentication_error") (.str p0AuthMsg))⟩,
        true, false⟩
    ∧ handlerP0 upOk reqNoCc = handlerP0 upOk ⟨reqNoCc.method, reqNoCc.path, [], reqNoCc.body⟩
    ∧ handlerV2 upOk reqNoCc =
        ⟨⟨401, .json (.obj [("error", .obj [("type", .str "authentication_error"),
            ("message", .str v2AuthMsg)])])⟩, true, false⟩
    ∧ handlerV2 upOk reqNoCc = handlerV2 upOk ⟨reqNoCc.method, reqNoCc.path, [], reqNoCc.body⟩ :=
  c10_no_cc_no_passthrough upOk reqNoCc rfl rfl (by decide)

/-! ## Claim C9 -/

/-- C9 counterexample: when the upstream call throws an error object whose
`error` field is a structured payload, V1 returns that payload verbatim as
the response body (`apiError.error || ...`) — the raw upstream error,
untranslated, and not `ErrorEnvelope`-shaped. -/
theorem c9_counterexample :
    handlerV1 upLeak reqBuffered =
      ⟨⟨502, .json (.obj [("weird", .str "upstream-internal")])⟩, true, true⟩
    ∧ bodyEnvelope (handlerV1 upLeak reqBuffered).response.body = false :=
  ⟨rfl, rfl⟩

theorem goodErr_parts (e : Json) (h : GoodErr e = true) :
    strOrNull (jsGet e "message") = true
    ∧ strOrNull ((jsGet e "error").bind (jsGet · "type")) = true
    ∧ strOrNull ((jsGet e "error").bind (jsGet · "message")) = true := by
  simp only [GoodErr, Bool.and_eq_true] at h
  tauto

/-- Shape of V2's upstream-failure body given a string message. -/
theorem v2_bare_shaped (m : Json) (hm : isStrOpt (some m) = true) :
    isBareErrorShaped (.obj [("error", .obj [("type", .str "upstream_error"),
      ("message", m)])]) = true := by
  have h0 : isBareErrorShaped (.obj [("error", .obj [("type", .str "upstream_error"),
      ("message", m)])]) = isStrOpt (some m) := rfl
  rw [h0, hm]

/-- C9 (amended): for upstream errors of the shape the SDK throws (string
or absent `message`, `error.type`, `error.message`), every failure path of
P0 produces a full `ErrorEnvelope` body, and every failure path of V2
produces the partial envelope `\x7b error: \x7b type, message \x7d \x7d`
without the spec's top-level `type` field; V1 meanwhile can return the raw
upstream error untranslated (see the counterexample). -/
theorem c9_failure_envelope_by_variant (up : Upstream) (req : Request)
    (hc : ∀ e, up.createResult = .error e → GoodErr e = true)
    (hs : ∀ e, up.streamCreate = .error e → GoodErr e = true) :
    ((handlerP0 up req).response.status ≠ 200 →
      bodyEnvelope (handlerP0 up req).response.body = true)
    ∧ ((handlerV2 up req).response.status ≠ 200 →
      ∃ j, (handlerV2 up req).response.body = .json j ∧ isBareErrorShaped j = true) := by
  constructor
  · by_cases hroute : req.path = "/v1/messages" ∧ req.method = "POST"
    · cases hx : extractCreds req.headers with
      | failed msg =>
        intro _
        simp [handlerP0, hroute, hx, bodyEnvelope]
        exact errorJSONv_shaped _ _ rfl rfl
      | missing =>
        intro _
        simp [handlerP0, hroute, hx, bodyEnvelope]
        exact errorJSONv_shaped _ _ rfl rfl
      | ok t u =>
        cases hb : req.body with
        | none =>
          intro _
          simp [handlerP0, hroute, hx, hb, bodyEnvelope]
          exact errorJSONv_shaped _ _ rfl rfl
        | some payload =>
          by_cases hstr : truthyOpt (jsGet payload "stream")
          · cases hsc : up.streamCreate with
            | ok s =>
              intro habs
              exact absurd (by simp [handlerP0, hroute, hx, hb, hstr, hsc]) habs
            | error e =>
              intro _
              obtain ⟨h1, h2, h3⟩ := goodErr_parts e (hs e hsc)
              simp [handlerP0, hroute, hx, hb, hstr, hsc, bodyEnvelope]
              exact errorJSONv_shaped _ _ (coalesce_isStr _ _ h2) (coalesce_isStr _ _ h1)
          · cases hcr : up.createResult with
            | ok doc =>
              intro habs
              exact absurd (by simp [handlerP0, hroute, hx, hb, hstr, hcr]) habs
            | error e =>
              intro _
              obtain ⟨h1, h2, h3⟩ := goodErr_parts e (hc e hcr)
              simp [handlerP0, hroute, hx, hb, hstr, hcr, bodyEnvelope]
              exact errorJSONv_shaped _ _ (coalesce_isStr _ _ h2) (coalesce_isStr _ _ h1)
    · intro _
      simp [handlerP0, hroute, bodyEnvelope]
      exact errorJSONv_shaped _ _ rfl rfl
  · by_cases hroute : req.method ≠ "POST" ∨ req.path ≠ "/v1/messages"
    · intro _
      exact ⟨.obj [("error", .obj [("type", .str "invalid_request_error"),
          ("message", .str "Only POST /v1/messages is supported by this proxy.")])],
        by simp [handlerV2, hroute], rfl⟩
    · cases hcfg : extractAnthropicConfig req.headers with
      | none =>
        intro _
        exact ⟨.obj [("error", .obj [("type", .str "authentication_error"),
            ("message", .str v2AuthMsg)])],
          by simp [handlerV2, hroute, hcfg], rfl⟩
      | some cfg =>
        cases hb : req.body with
        | none =>
          intro _
          exact ⟨.obj [("error", .obj [("type", .str "invalid_request_error"),
              ("message", .str "Request body must be valid JSON.")])],
            by simp [handlerV2, hroute, hcfg, hb], rfl⟩
        | some b =>
          cases hcr : up.createResult with
          | ok doc =>
            intro habs
            exact absurd (by simp [handlerV2, hroute, hcfg, hb, hcr]) habs
          | error e =>
            intro _
            obtain ⟨h1, h2, h3⟩ := goodErr_parts e (hc e hcr)
            exact ⟨.obj [("error", .obj [("type", .str "upstream_error"),
                ("message", v2ErrMsg e)])],
              by simp [handlerV2, hroute, hcfg, hb, hcr],
              v2_bare_shaped _ (orOpt_isStr _ _ h1 (orOpt_isStr _ _ h3 rfl))⟩

/-- C9 witness: a buffered request against an upstream failing with a
well-shaped error object. -/
theorem c9_failure_envelope_by_variant_witness :
    bodyEnvelope (handlerP0 upGoodErr reqBuffered).response.body = true
    ∧ (∃ j, (handlerV2 upGoodErr reqBuffered).response.body = .json j
        ∧ isBareErrorShaped j = true) := by
  have h := c9_failure_envelope_by_variant upGoodErr reqBuffered
    (by intro e he
        simp only [upGoodErr] at he
        injection he with h'
        rw [← h']
        rfl)
    (by intro e he
        simp only [upGoodErr] at he
        injection he with h'
        rw [← h']
        rfl)
  exact ⟨h.1 (by decide), h.2 (by decide)⟩

/-! ## String lemmas for the credential grammar -/

theorem data_append (a b : String) : (a ++ b).data = a.data ++ b.data := rfl

theorem data_ne_nil_of_ne_empty {s : String} (h : s ≠ "") : s.data ≠ [] :=
  fun habs => h (by cases s; exact congrArg String.mk habs)

theorem firstIdx_of_prefix {pat hay : List Char} (h : pat.isPrefixOf hay = true) :
    firstIdx pat hay = some 0 := by
  cases hay <;> simp [firstIdx, h]

theorem isPrefixOf_append_of_le {pat l : List Char} (t : List Char)
    (h : pat.length ≤ l.length) :
    pat.isPrefixOf (l ++ t) = pat.isPrefixOf l := by
  rw [Bool.eq_iff_iff]
  constructor
  · intro hpre
    have h1 : pat <+: l ++ t := List.isPrefixOf_iff_prefix.mp hpre
    have h2 := List.prefix_iff_eq_take.mp h1
    rw [List.take_append_of_le_length h] at h2
    exact List.isPrefixOf_iff_prefix.mpr (List.prefix_iff_eq_take.mpr h2)
  · intro hpre
    have h1 : pat <+: l := List.isPrefixOf_iff_prefix.mp hpre
    exact List.isPrefixOf_iff_prefix.mpr (h1.trans (List.prefix_append l t))

theorem firstIdx_append_inner {pat pre : List Char} (tail : List Char) {k : Nat}
    (h : firstIdx pat pre = some k) (hlen : k + pat.length ≤ pre.length) :
    firstIdx pat (pre ++ tail) = some k := by
  induction pre generalizing k with
  | nil =>
    by_cases hp : pat.isPrefixOf ([] : List Char) = true
    · have hpat : pat = [] := by
        cases pat with
        | nil => rfl
        | cons a as => simp [List.isPrefixOf] at hp
      subst hpat
      simp [firstIdx] at h
      subst h
      exact firstIdx_of_prefix (by simp [List.isPrefixOf])
    · simp [firstIdx, hp] at h
  | cons c rest ih =>
    by_cases hp : pat.isPrefixOf (c :: rest) = true
    · rw [firstIdx, if_pos hp] at h
      injection h with h2
      subst h2
      have hlen2 : pat.length ≤ (c :: rest).length := by simpa using hlen
      have hp2 : pat.isPrefixOf ((c :: rest) ++ tail) = true := by
        rw [isPrefixOf_append_of_le tail hlen2]
        exact hp
      exact firstIdx_of_prefix hp2
    · rw [firstIdx, if_neg (by simpa using hp)] at h
      obtain ⟨k1, hk1, hkk⟩ : ∃ k1, firstIdx pat rest = some k1 ∧ k = k1 + 1 := by
        cases hfi : firstIdx pat rest with
        | none => rw [hfi] at h; simp at h
        | some k1 =>
          rw [hfi] at h
          simp at h
          exact ⟨k1, rfl, h.symm⟩
      subst hkk
      have hlen1 : k1 + pat.length ≤ rest.length := by
        simp only [List.length_cons] at hlen
        omega
      have hplen : pat.length ≤ (c :: rest).length := by
        simp only [List.length_cons]
        omega
      have hp3 : ¬(pat.isPrefixOf ((c :: rest) ++ tail) = true) := by
        rw [isPrefixOf_append_of_le tail hplen]
        exact hp
      rw [List.cons_append, firstIdx, if_neg (by simpa using hp3), ih hk1 hlen1]
      rfl

theorem firstIdx_single_append {c : Char} {l : List Char} (r : List Char) (h : c ∉ l) :
    firstIdx [c] (l ++ c :: r) = some l.length := by
  induction l with
  | nil =>
    apply firstIdx_of_prefix
    simp [List.isPrefixOf]
  | cons a l ih =>
    have hca : ¬([c].isPrefixOf (a :: (l ++ c :: r)) = true) := by
      simp only [List.isPrefixOf, Bool.and_eq_true, beq_iff_eq]
      rintro ⟨rfl, -⟩
      exact h (List.mem_cons_self _ _)
    rw [List.cons_append, firstIdx, if_neg (by simpa using hca),
      ih (fun hm => h (List.mem_cons_of_mem _ hm))]
    rfl

theorem firstIdx_single_none {c : Char} {l : List Char} (h : c ∉ l) :
    firstIdx [c] l = none := by
  induction l with
  | nil => rfl
  | cons a l ih =>
    have hca : ¬([c].isPrefixOf (a :: l) = true) := by
      simp only [List.isPrefixOf, Bool.and_eq_true, beq_iff_eq]
      rintro ⟨rfl, -⟩
      exact h (List.mem_cons_self _ _)
    rw [firstIdx, if_neg (by simpa using hca),
      ih (fun hm => h (List.mem_cons_of_mem _ hm))]
    rfl

theorem trim_data {s : String} (h : jsTrim s = s) : trimChars s.data = s.data :=
  congrArg String.data h

theorem dropWhile_facts_of_trim {l : List Char} (h : trimChars l = l) :
    l.dropWhile jsWs = l ∧ l.reverse.dropWhile jsWs = l.reverse := by
  have hlenB : ((l.dropWhile jsWs).reverse.dropWhile jsWs).length = l.length := by
    have := congrArg List.length h
    simpa [trimChars] using this
  have hlenA : (l.dropWhile jsWs).length = l.length := by
    have h1 : ((l.dropWhile jsWs).reverse.dropWhile jsWs).length ≤ (l.dropWhile jsWs).length := by
      have := (List.dropWhile_sublist (l := (l.dropWhile jsWs).reverse) jsWs).length_le
      simpa using this
    have h2 : (l.dropWhile jsWs).length ≤ l.length :=
      (List.dropWhile_sublist jsWs).length_le
    omega
  have hA : l.dropWhile jsWs = l :=
    (List.dropWhile_sublist jsWs).eq_of_length hlenA
  refine ⟨hA, ?_⟩
  have hB : (l.reverse.dropWhile jsWs).reverse = l := by
    have := h
    rw [trimChars, hA] at this
    exact this
  rw [← List.reverse_inj, List.reverse_reverse] at hB
  rw [hB]

theorem head_false_of_dropWhile_self {p : Char → Bool} {a : Char} {t : List Char}
    (h : List.dropWhile p (a :: t) = a :: t) : p a = false := by
  by_cases hp : p a = true
  · rw [List.dropWhile_cons_of_pos hp] at h
    have hlen := congrArg List.length h
    have hle := (List.dropWhile_sublist (l := t) p).length_le
    simp at hlen
    omega
  · exact Bool.not_eq_true _ |>.mp hp

theorem trimChars_keep {c : Char} (hc : jsWs c = false) {mid u : List Char}
    (hu : u ≠ []) (hut : u.reverse.dropWhile jsWs = u.reverse) :
    trimChars (c :: (mid ++ u)) = c :: (mid ++ u) := by
  unfold trimChars
  rw [List.dropWhile_cons_of_neg (by simp [hc])]
  obtain ⟨b, ur, hur⟩ : ∃ b ur, u.reverse = b :: ur := by
    cases hrev2 : u.reverse with
    | nil =>
      exact absurd (by simpa using congrArg List.reverse hrev2) hu
    | cons b ur => exact ⟨b, ur, rfl⟩
  have hb : jsWs b = false := by
    apply head_false_of_dropWhile_self (p := jsWs) (t := ur)
    rw [← hur]
    exact hut
  have hrev : (c :: (mid ++ u)).reverse = b :: (ur ++ (mid.reverse ++ [c])) := by
    simp [hur]
  rw [hrev, List.dropWhile_cons_of_neg (by simp [hb])]
  have : (b :: (ur ++ (mid.reverse ++ [c]))).reverse = c :: (mid ++ (b :: ur).reverse) := by
    simp
  rw [this, ← hur]
  simp

theorem split_take {T u : List Char} : (T ++ '!' :: u).take T.length = T :=
  List.take_left T ('!' :: u)

theorem split_drop {T u : List Char} : (T ++ '!' :: u).drop (T.length + 1) = u := by
  have h1 : T ++ '!' :: u = (T ++ ['!']) ++ u := by simp
  have h2 : (T ++ ['!']).length = T.length + 1 := by simp
  rw [h1, List.drop_left' h2]

theorem cc_data (X : String) : ("cc:" ++ X).data = 'c' :: 'c' :: ':' :: X.data := rfl

theorem bearer_data (X : String) :
    ("Bearer cc:" ++ X).data = "Bearer cc:".data ++ X.data := rfl

theorem strIndexOf_cc_prefix (X : String) : strIndexOf ("cc:" ++ X) "cc:" = some 0 := by
  apply firstIdx_of_prefix
  rw [cc_data]
  simp [List.isPrefixOf]

theorem jsLower_cc (X : String) :
    (jsLower ("cc:" ++ X)).data = 'c' :: 'c' :: ':' :: (X.data.map Char.toLower) := by
  simp [jsLower, cc_data]

theorem strIndexOf_lower_cc (X : String) :
    strIndexOf (jsLower ("cc:" ++ X)) "cc:" = some 0 := by
  apply firstIdx_of_prefix
  rw [jsLower_cc]
  simp [List.isPrefixOf]

theorem includes_cc (X : String) : jsIncludes ("cc:" ++ X) "cc:" = true := by
  simp [jsIncludes, strIndexOf_cc_prefix]

theorem cc_ne_empty (X : String) : ("cc:" ++ X) ≠ "" := by
  intro habs
  have h := congrArg String.data habs
  rw [cc_data] at h
  simp at h

theorem noBearer_cc (X : String) : jsStartsWith (jsLower ("cc:" ++ X)) "bearer " = false := by
  rw [jsStartsWith, jsLower_cc]
  simp [List.isPrefixOf, show (('b' : Char) == 'c') = false from by decide]

theorem strIndexOf_bearer_cc (X : String) :
    strIndexOf ("Bearer cc:" ++ X) "cc:" = some 7 := by
  rw [strIndexOf, bearer_data]
  exact firstIdx_append_inner X.data (by decide) (by decide)

theorem includes_bearer_cc (X : String) : jsIncludes ("Bearer cc:" ++ X) "cc:" = true := by
  simp [jsIncludes, strIndexOf_bearer_cc]

theorem bearer_ne_empty (X : String) : ("Bearer cc:" ++ X) ≠ "" := by
  intro habs
  have h := congrArg String.data habs
  rw [bearer_data] at h
  simp at h

theorem jsLower_bearer (X : String) :
    (jsLower ("Bearer cc:" ++ X)).data = "bearer cc:".data ++ X.data.map Char.toLower := by
  have h1 : (jsLower ("Bearer cc:" ++ X)).data
      = "Bearer cc:".data.map Char.toLower ++ X.data.map Char.toLower := by
    simp [jsLower, bearer_data]
  rw [h1]
  rfl

theorem startsWith_bearer (X : String) :
    jsStartsWith (jsLower ("Bearer cc:" ++ X)) "bearer " = true := by
  rw [jsStartsWith, jsLower_bearer, isPrefixOf_append_of_le _ (by decide)]
  decide

theorem strIndexOf_lower_bearer_cc (X : String) :
    strIndexOf (jsLower ("Bearer cc:" ++ X)) "cc:" = some 7 := by
  rw [strIndexOf, jsLower_bearer]
  exact firstIdx_append_inner _ (by decide) (by decide)

theorem jsDrop_bearer_7 (X : String) : jsDrop ("Bearer cc:" ++ X) 7 = "cc:" ++ X := by
  have h : ("Bearer cc:" ++ X).data.drop 7 = ("cc:" ++ X).data := by
    rw [bearer_data, List.drop_append_of_le_length (by decide), cc_data]
    rfl
  rw [jsDrop, h]

theorem jsDrop_bearer_10 (X : String) : jsDrop ("Bearer cc:" ++ X) 10 = X := by
  have h : ("Bearer cc:" ++ X).data.drop 10 = X.data := by
    rw [bearer_data, List.drop_left' (by decide)]
  rw [jsDrop, h]

theorem jsDrop_cc_3 (X : String) : jsDrop ("cc:" ++ X) 3 = X := by
  have h : ("cc:" ++ X).data.drop 3 = X.data := by
    rw [cc_data]
    rfl
  rw [jsDrop, h]

theorem jsTrim_ccX (T U : String) (hU : U ≠ "") (hUt : jsTrim U = U) :
    jsTrim ("cc:" ++ (T ++ ("!" ++ U))) = "cc:" ++ (T ++ ("!" ++ U)) := by
  have hu : U.data ≠ [] := data_ne_nil_of_ne_empty hU
  have hut := (dropWhile_facts_of_trim (trim_data hUt)).2
  have hshape : ("cc:" ++ (T ++ ("!" ++ U))).data
      = 'c' :: (('c' :: ':' :: (T.data ++ ['!'])) ++ U.data) := by
    have h0 : ("cc:" ++ (T ++ ("!" ++ U))).data
        = 'c' :: 'c' :: ':' :: (T.data ++ '!' :: U.data) := rfl
    rw [h0]
    simp
  rw [jsTrim, hshape, trimChars_keep (by decide) hu hut, ← hshape]

theorem bangIdx_X (T U : String) (hTb : '!' ∉ T.data) :
    strIndexOf (T ++ ("!" ++ U)) "!" = some T.data.length := by
  rw [strIndexOf]
  exact firstIdx_single_append _ hTb

theorem take_X (T U : String) : jsTake (T ++ ("!" ++ U)) T.data.length = T := by
  show (⟨(T.data ++ '!' :: U.data).take T.data.length⟩ : String) = T
  rw [split_take]

theorem drop_X (T U : String) : jsDrop (T ++ ("!" ++ U)) (T.data.length + 1) = U := by
  show (⟨(T.data ++ '!' :: U.data).drop (T.data.length + 1)⟩ : String) = U
  rw [split_drop]

theorem normalizeBase_default :
    normalizeBase "https://api.anthropic.com" = "https://api.anthropic.com" := rfl

theorem parseCredentials_ccX (T U : String) (hTb : '!' ∉ T.data) :
    parseCredentials ("cc:" ++ (T ++ ("!" ++ U))) =
      if T = "" ∨ U = "" then (T ++ ("!" ++ U), "https://api.anthropic.com")
      else (T, normalizeBase U) := by
  simp only [parseCredentials, noBearer_cc, Bool.false_eq_true, if_false,
    strIndexOf_cc_prefix, Nat.zero_add, jsDrop_cc_3, bangIdx_X T U hTb, take_X, drop_X]
  by_cases hT : T = ""
  · simp [hT, normalizeBase_default]
  · by_cases hU : U = ""
    · simp [hT, hU, normalizeBase_default]
    · simp [hT, hU]

theorem parseCredentials_bearerX (T U : String) (hT : T ≠ "") (hU : U ≠ "")
    (hUt : jsTrim U = U) (hTb : '!' ∉ T.data) :
    parseCredentials ("Bearer cc:" ++ (T ++ ("!" ++ U))) = (T, normalizeBase U) := by
  simp only [parseCredentials, startsWith_bearer, if_true, jsDrop_bearer_7,
    jsTrim_ccX T U hU hUt, strIndexOf_cc_prefix, Nat.zero_add, jsDrop_cc_3,
    bangIdx_X T U hTb, take_X, drop_X]
  simp [hT, hU]

theorem parseCredentials_noBang (P : String) (hP : '!' ∉ P.data) :
    parseCredentials ("cc:" ++ P) = (P, "https://api.anthropic.com") := by
  have hbang : strIndexOf P "!" = none := firstIdx_single_none hP
  simp only [parseCredentials, noBearer_cc, Bool.false_eq_true, if_false,
    strIndexOf_cc_prefix, Nat.zero_add, jsDrop_cc_3, hbang, normalizeBase_default]

theorem extractCreds_bearerX (T U : String) (hT : T ≠ "") (hU : U ≠ "")
    (hTt : jsTrim T = T) (hUt : jsTrim U = U) (hTb : '!' ∉ T.data) :
    extractCreds [("authorization", "Bearer cc:" ++ (T ++ ("!" ++ U)))] = .ok T U := by
  have hfind : findCandidate [("authorization", "Bearer cc:" ++ (T ++ ("!" ++ U)))]
      = some ("Bearer cc:" ++ (T ++ ("!" ++ U))) := by
    rw [findCandidate, if_pos]
    exact ⟨Or.inl (by decide), bearer_ne_empty _, includes_bearer_cc _⟩
  simp only [extractCreds, hfind, strIndexOf_lower_bearer_cc,
    show (7 + 3) = 10 from rfl, jsDrop_bearer_10, bangIdx_X T U hTb, take_X, drop_X,
    hTt, hUt]
  simp [hT, hU]

theorem extractCreds_emptyHalf (T U : String) (hTb : '!' ∉ T.data)
    (h : jsTrim T = "" ∨ jsTrim U = "") :
    extractCreds [("authorization", "cc:" ++ (T ++ ("!" ++ U)))] =
      .failed "invalid cc header: empty token or base URL" := by
  have hfind : findCandidate [("authorization", "cc:" ++ (T ++ ("!" ++ U)))]
      = some ("cc:" ++ (T ++ ("!" ++ U))) := by
    rw [findCandidate, if_pos]
    exact ⟨Or.inl (by decide), cc_ne_empty _, includes_cc _⟩
  simp only [extractCreds, hfind, strIndexOf_lower_cc, Nat.zero_add, jsDrop_cc_3,
    bangIdx_X T U hTb, take_X, drop_X]
  rw [if_pos h]

theorem extractCreds_noBang (P : String) (hP : '!' ∉ P.data) :
    extractCreds [("authorization", "cc:" ++ P)] =
      .failed "invalid cc header: missing \"!\" separator" := by
  have hfind : findCandidate [("authorization", "cc:" ++ P)] = some ("cc:" ++ P) := by
    rw [findCandidate, if_pos]
    exact ⟨Or.inl (by decide), cc_ne_empty _, includes_cc _⟩
  have hbang : strIndexOf P "!" = none := firstIdx_single_none hP
  simp only [extractCreds, hfind, strIndexOf_lower_cc, Nat.zero_add, jsDrop_cc_3, hbang]

theorem mem_of_mem_trimChars {c : Char} {l : List Char} (h : c ∈ trimChars l) : c ∈ l := by
  rw [trimChars, List.mem_reverse] at h
  have h1 := (List.dropWhile_sublist (l := (l.dropWhile jsWs).reverse) jsWs).subset h
  rw [List.mem_reverse] at h1
  exact (List.dropWhile_sublist jsWs).subset h1

theorem extractAnthropicConfig_noBang (P : String) (hP : '!' ∉ P.data) :
    extractAnthropicConfig [("authorization", "cc:" ++ P)] = none := by
  have hfind : findCfgHeader [("authorization", "cc:" ++ P)] = some ("cc:" ++ P) := by
    rw [findCfgHeader, if_pos]
    exact ⟨Or.inl (by decide), cc_ne_empty _, includes_cc _⟩
  have hbang : strIndexOf (jsTrim P) "!" = none := by
    apply firstIdx_single_none
    intro hm
    exact hP (mem_of_mem_trimChars hm)
  by_cases hempty : jsTrim P = ""
  · simp only [extractAnthropicConfig, hfind, strIndexOf_cc_prefix, Nat.zero_add,
      jsDrop_cc_3, hempty]
    simp
  · simp only [extractAnthropicConfig, hfind, strIndexOf_cc_prefix, Nat.zero_add,
      jsDrop_cc_3, if_neg hempty, hbang]

/-! ## Claim C1 -/

/-- C1 counterexample: for the header value `Bearer cc:tok!example.com/`
(both halves non-empty after trimming), `extractCreds` returns the base URL
`example.com/` verbatim — neither `https://`-prefixed nor slash-stripped —
while `parseCredentials` returns `https://example.com` on the same input, so
the claimed uniform `baseURL = normalize(U)` fails; and for a value with a
trailing space, `parseCredentials` trims where the claimed normalization
would not. -/
theorem c1_counterexample :
    extractCreds [("authorization", "Bearer cc:tok!example.com/")] = .ok "tok" "example.com/"
    ∧ ("example.com/" : String) ≠ "https://example.com"
    ∧ parseCredentials "Bearer cc:tok!example.com/" = ("tok", "https://example.com")
    ∧ parseCredentials "Bearer cc:tok!example.com " = ("tok", "https://example.com")
    ∧ ("https://example.com" : String) ≠ "https://example.com " :=
  ⟨rfl, by decide, rfl, rfl, by decide⟩

/-- C1 (amended): for every header value `Bearer cc:T!U` with `T`, `U`
non-empty, free of surrounding whitespace, and `T` free of `!`,
`parseCredentials` yields token `T` and `U` normalized (prefix `https://`
unless `U` starts with `http`, strip one trailing `/`), while `extractCreds`
yields token `T` and the base URL `U` verbatim, with no normalization. -/
theorem c1_split_and_normalize (T U : String) (hT : T ≠ "") (hU : U ≠ "")
    (hTt : jsTrim T = T) (hUt : jsTrim U = U) (hTb : '!' ∉ T.data) :
    parseCredentials ("Bearer cc:" ++ (T ++ ("!" ++ U))) = (T, normalizeBase U)
    ∧ extractCreds [("authorization", "Bearer cc:" ++ (T ++ ("!" ++ U)))] = .ok T U :=
  ⟨parseCredentials_bearerX T U hT hU hUt hTb, extractCreds_bearerX T U hT hU hTt hUt hTb⟩

/-- C1 witness: `T = sk-ABC`, `U = api.example.com`. -/
theorem c1_split_and_normalize_witness :
    parseCredentials ("Bearer cc:" ++ ("sk-ABC" ++ ("!" ++ "api.example.com")))
      = ("sk-ABC", normalizeBase "api.example.com")
    ∧ extractCreds [("authorization", "Bearer cc:" ++ ("sk-ABC" ++ ("!" ++ "api.example.com")))]
      = .ok "sk-ABC" "api.example.com" :=
  c1_split_and_normalize "sk-ABC" "api.example.com" (by decide) (by decide) (by decide)
    (by decide) (by decide)

/-! ## Claim C4 -/

/-- C4 counterexample: on `cc:!example.com` (empty token half),
`parseCredentials` does not fail: it silently falls back to using the whole
payload `!example.com` as the token with the default base URL
`https://api.anthropic.com` — exactly the silent fallback the claim rules
out; `extractCreds` does fail. -/
theorem c4_counterexample :
    parseCredentials "cc:!example.com" = ("!example.com", "https://api.anthropic.com")
    ∧ extractCreds [("authorization", "cc:!example.com")] =
        .failed "invalid cc header: empty token or base URL" :=
  ⟨rfl, rfl⟩

/-- C4 (amended): when either half of the `cc:` payload is empty after
trimming, `extractCreds` fails with its malformed-credential error, but
`parseCredentials` never fails: if either half is the empty string it
silently uses the entire payload as token with the default base URL, and a
whitespace-only half is accepted verbatim. -/
theorem c4_empty_halves (T U : String) (hTb : '!' ∉ T.data)
    (h : jsTrim T = "" ∨ jsTrim U = "") :
    extractCreds [("authorization", "cc:" ++ (T ++ ("!" ++ U)))] =
      .failed "invalid cc header: empty token or base URL"
    ∧ parseCredentials ("cc:" ++ (T ++ ("!" ++ U))) =
        (if T = "" ∨ U = "" then (T ++ ("!" ++ U), "https://api.anthropic.com")
         else (T, normalizeBase U)) :=
  ⟨extractCreds_emptyHalf T U hTb h, parseCredentials_ccX T U hTb⟩

/-- C4 witness: a whitespace-only token half. -/
theorem c4_empty_halves_witness :
    extractCreds [("authorization", "cc:" ++ (" " ++ ("!" ++ "example.com")))] =
      .failed "invalid cc header: empty token or base URL"
    ∧ parseCredentials ("cc:" ++ (" " ++ ("!" ++ "example.com"))) =
        (if (" " : String) = "" ∨ ("example.com" : String) = ""
         then (" " ++ ("!" ++ "example.com"), "https://api.anthropic.com")
         else (" ", normalizeBase "example.com")) :=
  c4_empty_halves " " "example.com" (by decide) (Or.inl (by decide))

/-! ## Claim C5 -/

/-- C5 counterexample: on `cc:tokenonly` (no `!` after `cc:`),
`extractCreds` fails with its missing-separator error and
`extractAnthropicConfig` returns no credential — both treat it as a parse
failure, contradicting the claim; only `parseCredentials` uses the whole
payload as token. -/
theorem c5_counterexample :
    extractCreds [("authorization", "cc:tokenonly")] =
      .failed "invalid cc header: missing \"!\" separator"
    ∧ extractAnthropicConfig [("authorization", "cc:tokenonly")] = none
    ∧ parseCredentials "cc:tokenonly" = ("tokenonly", "https://api.anthropic.com") :=
  ⟨rfl, rfl, rfl⟩

/-- C5 (amended): for a `cc:` payload with no `!`, `parseCredentials` uses
the entire payload as the token with the default base URL and no failure,
while `extractCreds` fails with a missing-separator error and
`extractAnthropicConfig` yields no credential (leading to 401). -/
theorem c5_no_bang (P : String) (hP : '!' ∉ P.data) :
    parseCredentials ("cc:" ++ P) = (P, "https://api.anthropic.com")
    ∧ extractCreds [("authorization", "cc:" ++ P)] =
        .failed "invalid cc header: missing \"!\" separator"
    ∧ extractAnthropicConfig [("authorization", "cc:" ++ P)] = none :=
  ⟨parseCredentials_noBang P hP, extractCreds_noBang P hP, extractAnthropicConfig_noBang P hP⟩

/-- C5 witness: payload `tokenonly`. -/
theorem c5_no_bang_witness :
    parseCredentials ("cc:" ++ "tokenonly") = ("tokenonly", "https://api.anthropic.com")
    ∧ extractCreds [("authorization", "cc:" ++ "tokenonly")] =
        .failed "invalid cc header: missing \"!\" separator"
    ∧ extractAnthropicConfig [("authorization", "cc:" ++ "tokenonly")] = none :=
  c5_no_bang "tokenonly" (by decide)

end Xay
